import Mathlib

/-!
Shallow embedding of the tendem-mcp task-lifecycle client and tool-dispatch
layer (`src/tendem_mcp/models.py` and `src/tendem_mcp/server.py`), together
with proofs about the normalization, sentinel, pagination, dispatch and
filesystem-effect behaviour of the tools.
-/

namespace TendemMCP

/-! ### Python string primitives used by the source -/

/-- Python membership test `c in s` for a single character `c`. -/
def pyInChar (c : Char) (s : String) : Bool := s.data.contains c

/-- Python `s.endswith(c)` for a single-character suffix. -/
def pyEndsWithChar (s : String) (c : Char) : Bool := s.data.getLast? = some c

/-! ### `models._ensure_timezone`

The validator receives an arbitrary decoded JSON value.  We model the three
populations it distinguishes: strings, `datetime` objects (tzinfo plus an
abstract payload standing for the date/time fields untouched by `replace`),
and every other value. -/

/-- A Python `tzinfo` value: UTC or a fixed offset. -/
inductive PyTZInfo
  | utc
  | offsetMinutes (m : Int)
deriving DecidableEq, Repr

/-- A dynamic value reaching `_ensure_timezone`. -/
inductive PyValue
  | str (s : String)
  | datetime (tzinfo : Option PyTZInfo) (payload : Nat)
  | other (tag : Nat)
deriving DecidableEq, Repr, Inhabited

/-- `models._ensure_timezone`: if the value is a string containing no plus
sign, containing no capital Z, and not ending in lowercase z, append a Z;
if it is a naive datetime, attach UTC; otherwise return it unchanged. -/
def _ensure_timezone (v : PyValue) : PyValue :=
  match v with
  | .str s =>
      if !(pyInChar '+' s) && !(pyInChar 'Z' s) && !(pyEndsWithChar s 'z') then
        .str (s ++ "Z")
      else
        .str s
  | .datetime none payload => .datetime (some .utc) payload
  | w => w

/-- C1 (code_bug evidence): an already-zoned textual timestamp whose offset
uses a leading minus sign does not pass through unchanged: the validator
appends a Z, producing a string that is not the input (and is not valid
RFC 3339, so the downstream aware-datetime parse rejects it). -/
theorem c1_minus_offset_timestamp_mangled :
    _ensure_timezone (.str "2025-01-01T12:00:00-05:00")
        = .str "2025-01-01T12:00:00-05:00Z" ∧
      PyValue.str "2025-01-01T12:00:00-05:00Z"
        ≠ PyValue.str "2025-01-01T12:00:00-05:00" := by
  refine ⟨by decide, by decide⟩

/-- Auxiliary: appending a Z makes the capital-Z membership test true. -/
theorem pyInChar_append_Z (s : String) : pyInChar 'Z' (s ++ "Z") = true := by
  simp [pyInChar, String.data_append]

/-- C9: the timestamp normalization is idempotent on every input value. -/
theorem c9_ensure_timezone_idempotent (v : PyValue) :
    _ensure_timezone (_ensure_timezone v) = _ensure_timezone v := by
  cases v with
  | str s =>
      by_cases h : (!(pyInChar '+' s) && !(pyInChar 'Z' s)
          && !(pyEndsWithChar s 'z')) = true
      · have h2 : _ensure_timezone (.str s) = .str (s ++ "Z") := by
          simp [_ensure_timezone, h]
        rw [h2]
        have hz : pyInChar 'Z' (s ++ "Z") = true := pyInChar_append_Z s
        simp [_ensure_timezone, hz]
      · have h2 : _ensure_timezone (.str s) = .str s := by
          simp only [_ensure_timezone, if_neg h]
        rw [h2, h2]
  | datetime tz payload =>
      cases tz <;> simp [_ensure_timezone]
  | other t => simp [_ensure_timezone]

/-! ### Python `uuid.UUID` constructor -/

/-- Remove every leftmost non-overlapping occurrence of `pat`, Python
`s.replace(pat, '')`; structured on a fuel argument bounded by the list
length. -/
def removeAllAux (pat : List Char) : Nat → List Char → List Char
  | 0, cs => cs
  | _ + 1, [] => []
  | n + 1, c :: cs =>
      if pat ≠ [] ∧ pat.isPrefixOf (c :: cs) then
        removeAllAux pat n ((c :: cs).drop pat.length)
      else
        c :: removeAllAux pat n cs

/-- Python `s.replace(pat, '')`. -/
def removeAll (pat cs : List Char) : List Char :=
  removeAllAux pat cs.length cs

/-- Python `s.strip(chars)`: drop characters belonging to `chars` from both
ends. -/
def pyStripChars (chars cs : List Char) : List Char :=
  ((cs.dropWhile (chars.contains ·)).reverse.dropWhile (chars.contains ·)).reverse

/-- Value of one hexadecimal digit, or `none` for a non-hex character. -/
def hexDigitVal (c : Char) : Option Nat :=
  if '0' ≤ c ∧ c ≤ '9' then some (c.toNat - '0'.toNat)
  else if 'a' ≤ c ∧ c ≤ 'f' then some (c.toNat - 'a'.toNat + 10)
  else if 'A' ≤ c ∧ c ≤ 'F' then some (c.toNat - 'A'.toNat + 10)
  else none

/-- Python `int(s, 16)` restricted to plain digit strings: `none` models the
ValueError raised on a non-hexadecimal character. -/
def hexValAux : List Char → Nat → Option Nat
  | [], acc => some acc
  | c :: cs, acc =>
      match hexDigitVal c with
      | some d => hexValAux cs (acc * 16 + d)
      | none => none

/-- Models the Python stdlib `uuid.UUID(hex_string)` constructor used by the
dispatcher: remove every occurrence of `urn:` and then of `uuid:`, strip
curly braces from both ends, remove hyphens, require exactly 32 hexadecimal
digits, and return the 128-bit integer value.  `none` models the ValueError
the constructor raises on malformed input. -/
def parseUUID (s : String) : Option Nat :=
  let h1 := removeAll "uuid:".data (removeAll "urn:".data s.data)
  let h2 := (pyStripChars [Char.ofNat 123, Char.ofNat 125] h1).filter
    (fun c => c ≠ '-')
  if h2.length = 32 then hexValAux h2 0 else none

/-! ### Entity model (`models.py`) -/

/-- A 128-bit UUID value, as produced by the Python constructor. -/
abbrev UUIDVal := Nat

/-- `models.McpTaskStatus`, a string-valued enum. -/
inductive McpTaskStatus
  | DRAFT
  | AWAITING_APPROVAL
  | PROCESSING
  | COMPLETED
  | CANCELLED
  | FAILED
deriving DecidableEq, Repr, Inhabited

/-- The `.value` attribute of the status StrEnum member. -/
def McpTaskStatus.value : McpTaskStatus → String
  | .DRAFT => "DRAFT"
  | .AWAITING_APPROVAL => "AWAITING_APPROVAL"
  | .PROCESSING => "PROCESSING"
  | .COMPLETED => "COMPLETED"
  | .CANCELLED => "CANCELLED"
  | .FAILED => "FAILED"

/-- `models.McpApprovalRequestInfo`. -/
structure McpApprovalRequestInfo where
  price_usd : ℚ
  created_at : PyValue
deriving DecidableEq, Repr

/-- `models.McpTaskView`. -/
structure McpTaskView where
  task_id : UUIDVal
  name : String
  status : McpTaskStatus
  created_at : PyValue
  approval_request_info : Option McpApprovalRequestInfo
deriving DecidableEq, Repr

/-- `models.McpTaskListView`. -/
structure McpTaskListView where
  tasks : List McpTaskView
  total : Int
  page_number : Int
  page_size : Int
  pages : Int
deriving DecidableEq, Repr

/-- `models.McpCanvasView`. -/
structure McpCanvasView where
  canvas_id : UUIDVal
  version_id : UUIDVal
  created_at : PyValue
  content : String
deriving DecidableEq, Repr, Inhabited

/-- `models.McpTaskResultsView`. -/
structure McpTaskResultsView where
  canvases : List McpCanvasView
  total : Int
  page_number : Int
  page_size : Int
  pages : Int
deriving DecidableEq, Repr

/-- `models.McpCanvasToolResult`. -/
structure McpCanvasToolResult where
  created_at : PyValue
  content : String
deriving DecidableEq, Repr

/-- `models.McpAllTaskResultsToolResult`. -/
structure McpAllTaskResultsToolResult where
  results : List McpCanvasToolResult
  total : Int
  page_number : Int
  page_size : Int
  pages : Int
deriving DecidableEq, Repr

/-! ### Tool dispatch (`server.py`): `get_task_result`

The remote client is modelled as an environment of response functions; the
dispatcher's observable behaviour is its return value paired with the
ordered trace of client operations it performed. -/

/-- The remote client as observed by one dispatch: task snapshots by id and
paginated results by (id, page_number, page_size). -/
structure ClientEnv where
  taskOf : UUIDVal → McpTaskView
  resultsOf : UUIDVal → Int → Int → McpTaskResultsView

/-- One client operation performed by a tool. -/
inductive ClientOp
  | get_task (tid : UUIDVal)
  | get_task_results (tid : UUIDVal) (page_number page_size : Int)
deriving DecidableEq, Repr

/-- `server.get_task_result`: parse the task id, fetch the task; a
non-COMPLETED status yields the not-completed sentinel from the single
`get_task` call; otherwise fetch page 0 of size 1 of the results and return
the no-results sentinel on an empty collection or the first canvas's
content.  The result is paired with the ordered operation trace; `none`
models the UUID ValueError propagating before any client call. -/
def get_task_result (env : ClientEnv) (task_id : String) :
    Option (String × List ClientOp) :=
  match parseUUID task_id with
  | none => none
  | some tid =>
      let task := env.taskOf tid
      if task.status ≠ .COMPLETED then
        some ("Error: Task is not completed (status: " ++ task.status.value ++ ")",
          [.get_task tid])
      else
        let results := env.resultsOf tid 0 1
        match results.canvases with
        | [] =>
            some ("Error: No results found for completed task",
              [.get_task tid, .get_task_results tid 0 1])
        | c :: _ =>
            some (c.content, [.get_task tid, .get_task_results tid 0 1])

/-! ### Concrete environments for instantiations -/

/-- A canvas whose content happens to equal the no-results sentinel string. -/
def sentinelCanvas : McpCanvasView :=
  ⟨0, 0, .other 0, "Error: No results found for completed task"⟩

/-- Environment where every task is COMPLETED and the results page holds
exactly the sentinel-content canvas. -/
def sentinelEnv : ClientEnv :=
  ⟨fun tid => ⟨tid, "t", .COMPLETED, .other 0, none⟩,
   fun _ _ _ => ⟨[sentinelCanvas], 1, 0, 1, 1⟩⟩

/-- Environment where every task is PROCESSING and results are empty. -/
def processingEnv : ClientEnv :=
  ⟨fun tid => ⟨tid, "t", .PROCESSING, .other 0, none⟩,
   fun _ _ _ => ⟨[], 0, 0, 1, 0⟩⟩

/-- Environment with completed tasks and one canvas with content "done". -/
def completedEnv : ClientEnv :=
  ⟨fun tid => ⟨tid, "t", .COMPLETED, .other 0, none⟩,
   fun _ _ _ => ⟨[⟨1, 2, .other 0, "done"⟩], 1, 0, 1, 1⟩⟩

/-- The all-zero UUID string. -/
def zeroUUIDStr : String := "00000000-0000-0000-0000-000000000000"

/-- The not-completed sentinel never coincides with the no-results sentinel,
whatever the status. -/
theorem notCompleted_ne_noResults (s : McpTaskStatus) :
    "Error: Task is not completed (status: " ++ s.value ++ ")"
      ≠ "Error: No results found for completed task" := by
  cases s <;> decide

/-- C2 (counterexample): with every task COMPLETED and a single fetched
canvas whose content equals the no-results sentinel, `get_task_result`
returns exactly the no-results sentinel string although the fetched canvas
collection is non-empty, refuting the only-if direction of the claim. -/
theorem c2_counterexample :
    (get_task_result sentinelEnv zeroUUIDStr).map Prod.fst
        = some "Error: No results found for completed task"
      ∧ (sentinelEnv.taskOf 0).status = .COMPLETED
      ∧ (sentinelEnv.resultsOf 0 0 1).canvases ≠ [] := by
  refine ⟨rfl, rfl, by decide⟩

/-- C2 (amended): a non-COMPLETED status yields exactly the not-completed
sentinel; a COMPLETED status with an empty fetched collection yields exactly
the no-results sentinel; and whenever the no-results sentinel is returned
the status was COMPLETED and either the collection was empty or the first
canvas's content itself equals the sentinel string. -/
theorem c2_sentinel_strings (env : ClientEnv) (task_id : String)
    (tid : UUIDVal) (hp : parseUUID task_id = some tid) :
    ((env.taskOf tid).status ≠ .COMPLETED →
        get_task_result env task_id
          = some ("Error: Task is not completed (status: "
              ++ (env.taskOf tid).status.value ++ ")", [.get_task tid]))
      ∧ ((env.taskOf tid).status = .COMPLETED →
          (env.resultsOf tid 0 1).canvases = [] →
          (get_task_result env task_id).map Prod.fst
            = some "Error: No results found for completed task")
      ∧ ((get_task_result env task_id).map Prod.fst
            = some "Error: No results found for completed task" →
          (env.taskOf tid).status = .COMPLETED
            ∧ ((env.resultsOf tid 0 1).canvases = []
                ∨ ((env.resultsOf tid 0 1).canvases.headI).content
                    = "Error: No results found for completed task")) := by
  rcases hres : (env.resultsOf tid 0 1).canvases with _ | ⟨c, cs⟩ <;>
    by_cases hs : (env.taskOf tid).status = .COMPLETED <;>
      simp [get_task_result, hp, hs, hres, notCompleted_ne_noResults]

/-- C2 (witness): instantiation of the amended sentinel theorem at the
all-zero UUID over the PROCESSING environment. -/
theorem c2_sentinel_strings_witness :
    parseUUID zeroUUIDStr = some 0
      ∧ (((processingEnv.taskOf 0).status ≠ .COMPLETED →
            get_task_result processingEnv zeroUUIDStr
              = some ("Error: Task is not completed (status: "
                  ++ (processingEnv.taskOf 0).status.value ++ ")",
                  [.get_task 0]))
          ∧ ((processingEnv.taskOf 0).status = .COMPLETED →
              (processingEnv.resultsOf 0 0 1).canvases = [] →
              (get_task_result processingEnv zeroUUIDStr).map Prod.fst
                = some "Error: No results found for completed task")
          ∧ ((get_task_result processingEnv zeroUUIDStr).map Prod.fst
                = some "Error: No results found for completed task" →
              (processingEnv.taskOf 0).status = .COMPLETED
                ∧ ((processingEnv.resultsOf 0 0 1).canvases = []
                    ∨ ((processingEnv.resultsOf 0 0 1).canvases.headI).content
                        = "Error: No results found for completed task"))) :=
  ⟨by decide, c2_sentinel_strings processingEnv zeroUUIDStr 0 (by decide)⟩

/-- C6: for a COMPLETED task whose fetched page-0, size-1, newest-first
canvas collection is non-empty, `get_task_result` returns the content of
its first element. -/
theorem c6_returns_latest_canvas (env : ClientEnv) (task_id : String)
    (tid : UUIDVal) (hp : parseUUID task_id = some tid)
    (hs : (env.taskOf tid).status = .COMPLETED)
    (c : McpCanvasView) (cs : List McpCanvasView)
    (hne : (env.resultsOf tid 0 1).canvases = c :: cs) :
    (get_task_result env task_id).map Prod.fst = some c.content := by
  simp [get_task_result, hp, hs, hne]

/-- C6 (witness): instantiation over the completed environment, whose first
canvas's content is "done". -/
theorem c6_returns_latest_canvas_witness :
    parseUUID zeroUUIDStr = some 0
      ∧ (completedEnv.taskOf 0).status = .COMPLETED
      ∧ (completedEnv.resultsOf 0 0 1).canvases
          = [⟨1, 2, .other 0, "done"⟩]
      ∧ (get_task_result completedEnv zeroUUIDStr).map Prod.fst
          = some (McpCanvasView.mk 1 2 (.other 0) "done").content :=
  ⟨by decide, rfl, rfl,
    c6_returns_latest_canvas completedEnv zeroUUIDStr 0 (by decide) rfl
      ⟨1, 2, .other 0, "done"⟩ [] rfl⟩

/-- C10: when the observed status is not COMPLETED, the operation trace of
`get_task_result` is exactly the single `get_task` call: no
`get_task_results` fetch is performed. -/
theorem c10_no_fetch_when_not_completed (env : ClientEnv) (task_id : String)
    (tid : UUIDVal) (hp : parseUUID task_id = some tid)
    (hs : (env.taskOf tid).status ≠ .COMPLETED) :
    (get_task_result env task_id).map Prod.snd
      = some [ClientOp.get_task tid] := by
  simp [get_task_result, hp, hs]

/-- C10 (witness): instantiation over the PROCESSING environment. -/
theorem c10_no_fetch_when_not_completed_witness :
    parseUUID zeroUUIDStr = some 0
      ∧ (processingEnv.taskOf 0).status ≠ .COMPLETED
      ∧ (get_task_result processingEnv zeroUUIDStr).map Prod.snd
          = some [ClientOp.get_task 0] :=
  ⟨by decide, by decide,
    c10_no_fetch_when_not_completed processingEnv zeroUUIDStr 0
      (by decide) (by decide)⟩

/-! ### `server.get_client` under `functools.cache` -/

/-- The process environment variables read by the factory. -/
structure OsEnv where
  TENDEM_API_KEY : Option String
  TENDEM_API_URL : Option String
  TENDEM_DEBUG : Option String
deriving DecidableEq, Repr

/-- The constructed remote client,
`TendemClient(api_key, base_url, debug)`. -/
structure TendemClient where
  api_key : String
  base_url : String
  debug : Bool
deriving DecidableEq, Repr

/-- `server.DEFAULT_API_URL`. -/
def DEFAULT_API_URL : String := "https://api.tendem.ai/api/v0"

/-- Python `s.lower()` on ASCII text. -/
def pyLower (s : String) : String := ⟨s.data.map Char.toLower⟩

/-- `server.get_client` together with its `functools.cache` decorator: the
cache state is the memoised result of the zero-argument call; exceptions
are not cached.  A hit returns the cached client; on a miss the body runs:
a missing or empty TENDEM_API_KEY raises ValueError (modelled as `.error`),
leaving the cache empty, otherwise a client is constructed from the key,
the base-url override and the debug flag, cached and returned. -/
def get_client (env : OsEnv) (cached : Option TendemClient) :
    Except String TendemClient × Option TendemClient :=
  match cached with
  | some c => (.ok c, some c)
  | none =>
      if env.TENDEM_API_KEY = none ∨ env.TENDEM_API_KEY = some "" then
        (.error "TENDEM_API_KEY environment variable is required", none)
      else
        let key := env.TENDEM_API_KEY.getD ""
        let base_url := env.TENDEM_API_URL.getD DEFAULT_API_URL
        let debug :=
          (["1", "true", "yes"] : List String).contains
            (pyLower (env.TENDEM_DEBUG.getD ""))
        let c : TendemClient := ⟨key, base_url, debug⟩
        (.ok c, some c)

/-- Environment with the API key absent. -/
def noKeyEnv : OsEnv := ⟨none, none, none⟩

/-- C8 (counterexample): with the API key absent, the first factory call
raises and caches nothing, and a second call raises once more: the
configuration failure recurs on every call rather than arising only at the
first client use. -/
theorem c8_counterexample :
    (get_client noKeyEnv none).1
        = .error "TENDEM_API_KEY environment variable is required"
      ∧ (get_client noKeyEnv none).2 = none
      ∧ (get_client noKeyEnv (get_client noKeyEnv none).2).1
          = .error "TENDEM_API_KEY environment variable is required" :=
  ⟨rfl, rfl, rfl⟩

/-- C8 (amended): while the credential is absent or empty, every factory
invocation raises the configuration ValueError and no client is ever
constructed: the cache stays empty, so the failure is not memoised and
recurs at each call. -/
theorem c8_missing_key_raises (env : OsEnv)
    (h : env.TENDEM_API_KEY = none ∨ env.TENDEM_API_KEY = some "") :
    (get_client env none).1
        = .error "TENDEM_API_KEY environment variable is required"
      ∧ (get_client env none).2 = none := by
  rcases h with h | h <;> simp [get_client, h]

/-- C8 (witness): instantiation at the keyless environment. -/
theorem c8_missing_key_raises_witness :
    (noKeyEnv.TENDEM_API_KEY = none ∨ noKeyEnv.TENDEM_API_KEY = some "")
      ∧ ((get_client noKeyEnv none).1
            = .error "TENDEM_API_KEY environment variable is required"
          ∧ (get_client noKeyEnv none).2 = none) :=
  ⟨Or.inl rfl, c8_missing_key_raises noKeyEnv (Or.inl rfl)⟩

/-! ### `pathlib` paths and the local filesystem -/

/-- A `pathlib.PurePosixPath`: an absolute flag and the parsed components.
pathlib drops empty fragments and single-dot fragments and keeps "..". -/
structure PurePath where
  absolute : Bool
  parts : List String
deriving DecidableEq, Repr

/-- `pathlib.Path(s)` parsing: absolute iff the text starts with a slash;
components are the slash-separated fragments with empty and "." fragments
dropped. -/
def parsePath (s : String) : PurePath :=
  ⟨s.data.head? = some '/',
   ((s.data.splitOn '/').map (fun cs => (⟨cs⟩ : String))).filter
     (fun p => p != "" && p != ".")⟩

/-- `str()` of a path: slash-joined parts with a leading slash when
absolute; the empty relative path prints as ".". -/
def PurePath.toStr (p : PurePath) : String :=
  if p.absolute then "/" ++ String.intercalate "/" p.parts
  else if p.parts = [] then "." else String.intercalate "/" p.parts

/-- `path.parent`: drop the last component; the parent of a root or of "."
is itself. -/
def PurePath.parent (p : PurePath) : PurePath :=
  if p.parts = [] then p else ⟨p.absolute, p.parts.dropLast⟩

/-- The path and each of its ancestors, shortest first. -/
def PurePath.selfAndAncestors (p : PurePath) : List PurePath :=
  (List.range (p.parts.length + 1)).map (fun n => ⟨p.absolute, p.parts.take n⟩)

/-- The local filesystem: existing directories and files with byte
contents. -/
structure FileSystem where
  dirs : List PurePath
  files : List (String × List Nat)
deriving DecidableEq, Repr

/-- `Path.mkdir(parents=True, exist_ok=True)`: the directory and all its
missing ancestors come into existence. -/
def mkdirParents (fs : FileSystem) (p : PurePath) : FileSystem :=
  ⟨p.selfAndAncestors ++ fs.dirs, fs.files⟩

/-- `Path.write_bytes`: replace whatever is at the path with the content. -/
def writeBytes (fs : FileSystem) (p : String) (content : List Nat) :
    FileSystem :=
  ⟨fs.dirs, (p, content) :: fs.files.filter (fun kv => kv.1 != p)⟩

/-- Contents of the file at a path, if any. -/
def FileSystem.read (fs : FileSystem) (p : String) : Option (List Nat) :=
  (fs.files.find? (fun kv => kv.1 == p)).map Prod.snd

/-! ### `server.download_artifact` -/

/-- The network operation `download_artifact` performs. -/
inductive ArtifactOp
  | fetch (tid : UUIDVal) (artifact_id : String)
deriving DecidableEq, Repr

/-- `server.download_artifact`: parse `task_id` with the UUID constructor
(`artifact_id` is handed to the client verbatim, with no UUID parsing),
fetch the artifact bytes, create the destination's missing parent
directories, write the bytes, and return the confirmation message naming
the resolved path and the byte count.  `none` models the UUID ValueError
propagating before any network or filesystem activity; otherwise the
result carries the message, the network trace and the final filesystem. -/
def download_artifact (fetchArtifact : UUIDVal → String → List Nat)
    (fs : FileSystem) (task_id artifact_id path : String) :
    Option (String × List ArtifactOp × FileSystem) :=
  match parseUUID task_id with
  | none => none
  | some tid =>
      let content := fetchArtifact tid artifact_id
      let file_path := parsePath path
      let fs1 := mkdirParents fs file_path.parent
      let fs2 := writeBytes fs1 file_path.toStr content
      some ("Artifact saved to " ++ file_path.toStr ++ " ("
          ++ toString content.length ++ " bytes)",
        [.fetch tid artifact_id], fs2)

/-- A constant two-byte artifact fetch for concrete instantiations. -/
def constFetch : UUIDVal → String → List Nat := fun _ _ => [104, 105]

/-- The empty filesystem. -/
def emptyFS : FileSystem := ⟨[], []⟩

/-- C4 (counterexample): with a well-formed task id and the malformed
artifact id "not-a-uuid" (which the UUID constructor rejects),
`download_artifact` is not rejected before network activity: it proceeds
to the artifact fetch, passing the malformed artifact id through
verbatim. -/
theorem c4_counterexample :
    parseUUID "not-a-uuid" = none
      ∧ (download_artifact constFetch emptyFS zeroUUIDStr "not-a-uuid"
            "/tmp/a").map (fun r => r.2.1)
          = some [ArtifactOp.fetch 0 "not-a-uuid"] :=
  ⟨rfl, rfl⟩

/-- C4 (amended): `task_id` is parsed with the UUID constructor and a
malformed `task_id` rejects the call before any network or filesystem
activity, in `download_artifact` as in `get_task_result`; but
`download_artifact`'s `artifact_id` is not UUID-parsed: it is forwarded
verbatim to the client fetch. -/
theorem c4_uuid_arguments (fetchArtifact : UUIDVal → String → List Nat)
    (fs : FileSystem) (env : ClientEnv) (task_id artifact_id path : String) :
    (parseUUID task_id = none →
        download_artifact fetchArtifact fs task_id artifact_id path = none
          ∧ get_task_result env task_id = none)
      ∧ (∀ tid, parseUUID task_id = some tid →
          (download_artifact fetchArtifact fs task_id artifact_id path).map
              (fun r => r.2.1)
            = some [ArtifactOp.fetch tid artifact_id]) := by
  constructor
  · intro hp
    constructor <;> simp [download_artifact, get_task_result, hp]
  · intro tid hp
    simp [download_artifact, hp]

/-- C4 (witness): instantiation at the malformed task id "xyz". -/
theorem c4_uuid_arguments_witness :
    parseUUID "xyz" = none
      ∧ (download_artifact constFetch emptyFS "xyz" "a" "/tmp/a" = none
          ∧ get_task_result processingEnv "xyz" = none) :=
  ⟨rfl,
    (c4_uuid_arguments constFetch emptyFS processingEnv "xyz" "a" "/tmp/a").1
      rfl⟩

/-- C7: a successful `download_artifact` call creates the destination's
parent directory and every missing ancestor of it, writes the full fetched
byte sequence at the resolved path, and returns the confirmation message
embedding the resolved path and the exact byte count written. -/
theorem c7_download_writes_and_reports
    (fetchArtifact : UUIDVal → String → List Nat) (fs : FileSystem)
    (task_id artifact_id path : String) (tid : UUIDVal)
    (hp : parseUUID task_id = some tid) :
    ∃ msg ops fs2,
      download_artifact fetchArtifact fs task_id artifact_id path
          = some (msg, ops, fs2)
        ∧ msg = "Artifact saved to " ++ (parsePath path).toStr ++ " ("
            ++ toString (fetchArtifact tid artifact_id).length ++ " bytes)"
        ∧ fs2.read (parsePath path).toStr
            = some (fetchArtifact tid artifact_id)
        ∧ ∀ q ∈ (parsePath path).parent.selfAndAncestors, q ∈ fs2.dirs := by
  refine ⟨"Artifact saved to " ++ (parsePath path).toStr ++ " ("
      ++ toString (fetchArtifact tid artifact_id).length ++ " bytes)",
    [ArtifactOp.fetch tid artifact_id],
    writeBytes (mkdirParents fs (parsePath path).parent)
      (parsePath path).toStr (fetchArtifact tid artifact_id),
    ?_, rfl, ?_, ?_⟩
  · simp [download_artifact, hp]
  · simp [FileSystem.read, writeBytes, mkdirParents, List.find?]
  · intro q hq
    simp [writeBytes, mkdirParents]
    exact Or.inl hq

/-- C7 (witness): instantiation writing two bytes to /tmp/out/a.png over
the empty filesystem. -/
theorem c7_download_writes_and_reports_witness :
    parseUUID zeroUUIDStr = some 0
      ∧ ∃ msg ops fs2,
          download_artifact constFetch emptyFS zeroUUIDStr "art"
              "/tmp/out/a.png"
            = some (msg, ops, fs2)
          ∧ msg = "Artifact saved to "
              ++ (parsePath "/tmp/out/a.png").toStr ++ " ("
              ++ toString (constFetch 0 "art").length ++ " bytes)"
          ∧ fs2.read (parsePath "/tmp/out/a.png").toStr
              = some (constFetch 0 "art")
          ∧ ∀ q ∈ (parsePath "/tmp/out/a.png").parent.selfAndAncestors,
              q ∈ fs2.dirs :=
  ⟨by decide,
    c7_download_writes_and_reports constFetch emptyFS zeroUUIDStr "art"
      "/tmp/out/a.png" 0 (by decide)⟩

/-! ### Pagination -/

/-- Modelled from the spec: the response-decoding client
(`tendem_mcp/client.py`), which populates the `pages` field of the
paginated collection models (task lists and canvas results), is not part
of the available source; the spec defines the field as
`pages = ceil(total / page_size)`, 0 when total is 0. -/
def pagesOf (total page_size : ℕ) : ℕ := ⌈(total : ℚ) / (page_size : ℚ)⌉₊

/-- C5: for page_size ≥ 1 the pages value is the ceiling of
total / page_size, with closed form (total + page_size - 1) / page_size,
and it is zero exactly when total is zero. -/
theorem c5_pages_is_ceil (total page_size : ℕ) (h : 1 ≤ page_size) :
    pagesOf total page_size = (total + page_size - 1) / page_size
      ∧ (pagesOf total page_size = 0 ↔ total = 0) := by
  have hps : 0 < page_size := h
  have key : pagesOf total page_size = (total + page_size - 1) / page_size := by
    rcases total with _ | t
    · have h0 : (page_size - 1) / page_size = 0 :=
        Nat.div_eq_of_lt (by omega)
      simp [pagesOf, h0]
    · have hq : (0 : ℚ) < page_size := by exact_mod_cast hps
      have hrhs : (t + 1 + page_size - 1) / page_size = t / page_size + 1 := by
        have he : t + 1 + page_size - 1 = t + page_size := by omega
        rw [he, Nat.add_div_right t hps]
      rw [hrhs]
      unfold pagesOf
      rw [Nat.ceil_eq_iff (Nat.succ_ne_zero (t / page_size)),
        Nat.succ_sub_one]
      constructor
      · rw [lt_div_iff₀ hq]
        have h1 : t / page_size * page_size ≤ t := Nat.div_mul_le_self t page_size
        have h1' : ((t / page_size * page_size : ℕ) : ℚ) ≤ (t : ℚ) := by
          exact_mod_cast h1
        push_cast at h1' ⊢
        linarith
      · rw [div_le_iff₀ hq]
        have h2 := Nat.div_add_mod t page_size
        have h4 : t % page_size + 1 ≤ page_size := Nat.mod_lt t hps
        have h2' : ((page_size * (t / page_size) + t % page_size : ℕ) : ℚ)
            = (t : ℚ) := by exact_mod_cast h2
        have h4' : ((t % page_size : ℕ) : ℚ) + 1 ≤ (page_size : ℚ) := by
          exact_mod_cast h4
        have hexp : (((t / page_size : ℕ) : ℚ) + 1) * (page_size : ℚ)
            = (page_size : ℚ) * ((t / page_size : ℕ) : ℚ) + page_size := by
          ring
        push_cast at h2' h4' ⊢
        rw [hexp]
        linarith
  refine ⟨key, ?_⟩
  rw [key, Nat.div_eq_zero_iff hps]
  omega

/-- C5 (witness): 7 items at page size 3 give 3 pages. -/
theorem c5_pages_is_ceil_witness :
    1 ≤ 3
      ∧ (pagesOf 7 3 = (7 + 3 - 1) / 3 ∧ (pagesOf 7 3 = 0 ↔ (7 : ℕ) = 0)) :=
  ⟨by decide, c5_pages_is_ceil 7 3 (by decide)⟩

end TendemMCP
